import Mathlib

/-!
Shallow embedding of the gmail-rule-engine repository (src/src/rule_engine.py,
src/src/rule_validator.py, src/src/database.py) and proofs about the claims
of its specification.

Modelling conventions:
- Python `datetime` values are embedded as integer epoch seconds; a
  `timedelta(days = n)` is exactly `n * 86400` seconds, which matches the
  exact arithmetic of naive `datetime` subtraction.  The timezone
  normalisation step of `_evaluate_date_condition` only converts both sides
  to a common basis, so a single integer timeline models it.
- Python `None` is `Option.none`; a `dict.get(k, d)` with default is the
  stored field with the default applied.
- Python `str.lower` is a character map, `str.strip` removes whitespace at
  both ends, `in` on strings is substring containment.
-/

namespace GmailRules

/-- Python `str.lower()` on a string, as used by the engine: lower-case
every character. -/
def pyLower (s : String) : String := String.mk (s.toList.map Char.toLower)

/-- Python `str.strip()` on a character list: drop whitespace at both
ends. -/
def pyStripList (cs : List Char) : List Char :=
  ((cs.dropWhile Char.isWhitespace).reverse.dropWhile Char.isWhitespace).reverse

/-- Python `str.strip()`: drop whitespace at both ends. -/
def pyStrip (s : String) : String := String.mk (pyStripList s.toList)

/-- Does the second list start with the first one? -/
def startsWithL : List Char → List Char → Bool
  | [], _ => true
  | _ :: _, [] => false
  | a :: as, b :: bs => a == b && startsWithL as bs

/-- Substring containment on character lists. -/
def containsSub (needle : List Char) : List Char → Bool
  | [] => needle.isEmpty
  | b :: bs => startsWithL needle (b :: bs) || containsSub needle bs

/-- Python `needle in hay` on strings. -/
def pyIn (needle hay : String) : Bool := containsSub needle.toList hay.toList

/-- Digit-string to number; `none` when empty or a non-digit occurs. -/
def parseDigits (cs : List Char) : Option Nat :=
  if cs.isEmpty then none
  else if cs.all Char.isDigit then
    some (cs.foldl (fun a c => a * 10 + (c.toNat - 48)) 0)
  else none

/-- Python `int(s)` on a string: strip, optional sign, digits. -/
def pyInt (s : String) : Option Int :=
  match (pyStrip s).toList with
  | '-' :: rest => (parseDigits rest).map (fun n => -(n : Int))
  | '+' :: rest => (parseDigits rest).map (fun n => (n : Int))
  | cs => (parseDigits cs).map (fun n => (n : Int))

/-- A JSON scalar sitting in a `value` slot of a condition: a string, a
number, or JSON null. -/
inductive CVal where
  | vs (s : String)
  | vi (n : Int)
  | vnone
  deriving DecidableEq, Repr

/-- Python `int(value)` on a condition value; `none` models the raised
exception (`ValueError` for a bad string, `TypeError` for `None`). -/
def pyIntOfCVal : CVal → Option Int
  | .vi n => some n
  | .vs s => pyInt s
  | .vnone => none

/-- RuleEngine._evaluate_string_condition (rule_engine.py lines 88-112).
The email value arrives through `email.get(field, "")`, so `none` covers
both a missing key and an explicit null; the source turns it into `""`. -/
def evaluate_string_condition (email_value : Option String) (predicate : String)
    (condition_value : CVal) : Bool :=
  match condition_value with
  | .vnone => false
  | cv =>
    let cvs := match cv with
      | .vs s => s
      | .vi n => toString n
      | .vnone => ""
    let raw_email_value := pyLower (email_value.getD "")
    let ev := pyStrip raw_email_value
    let c := pyStrip (pyLower cvs)
    if c = "" then false
    else if predicate = "contains" then pyIn c ev
    else if predicate = "does_not_contain" then !(pyIn c ev)
    else if predicate = "equals" then ev == c
    else if predicate = "does_not_equal" then ev != c
    else false

/-- RuleEngine._evaluate_date_condition (rule_engine.py lines 114-150).
`email_date = none` covers a missing, null, empty or unparseable date (the
source returns `False` for falsy input and on any parse exception); a
present date is its epoch-second value after the normalisation step. -/
def evaluate_date_condition (now : Int) (email_date : Option Int)
    (predicate : String) (value : CVal) (unit : String) : Bool :=
  match email_date with
  | none => false
  | some email_time =>
    match pyIntOfCVal value with
    | none => false
    | some value_int =>
      let threshold? : Option Int :=
        if unit = "days" then some (now - value_int * 86400)
        else if unit = "months" then some (now - value_int * 30 * 86400)
        else none
      match threshold? with
      | none => false
      | some threshold =>
        if predicate = "less_than" then threshold < email_time
        else if predicate = "greater_than" then email_time < threshold
        else false

/-- An email as the engine sees it: a dict whose string fields may be
missing or null (both `none`), and whose date is pre-parsed. -/
structure Email where
  from_email : Option String := none
  to_email : Option String := none
  subject : Option String := none
  message : Option String := none
  received_date : Option Int := none
  deriving DecidableEq, Repr

/-- The dict lookup `email.get(field, "")` restricted to string use: an
absent key yields the default `""`. -/
def emailGetStr (e : Email) (field : String) : Option String :=
  if field = "from" then e.from_email
  else if field = "to" then e.to_email
  else if field = "subject" then e.subject
  else if field = "message" then e.message
  else some ""

/-- A condition as the engine consumes it (post-validation shape). -/
structure Cond where
  field : String
  predicate : String
  value : CVal
  unit : Option String := none
  deriving DecidableEq, Repr

/-- RuleEngine.evaluate_condition (rule_engine.py lines 74-86). -/
def evaluate_condition (now : Int) (condition : Cond) (email : Email) : Bool :=
  if condition.field = "received_date" then
    evaluate_date_condition now email.received_date condition.predicate
      condition.value (condition.unit.getD "days")
  else
    evaluate_string_condition (emailGetStr email condition.field)
      condition.predicate condition.value

/-- An action of a rule. -/
structure Action where
  type : String
  destination : Option String := none
  deriving DecidableEq, Repr

/-- A rule as the engine consumes it. -/
structure Rule where
  name : String
  predicate : String
  conditions : List Cond
  actions : List Action
  deriving DecidableEq, Repr

/-- RuleEngine.evaluate_rule (rule_engine.py lines 61-72). -/
def evaluate_rule (now : Int) (rule : Rule) (email : Email) : Bool :=
  let predicate := pyLower rule.predicate
  let results := rule.conditions.map (fun cond => evaluate_condition now cond email)
  if predicate = "all" then results.all (fun r => r)
  else if predicate = "any" then results.any (fun r => r)
  else false

/-- RuleEngine.evaluate_rules (rule_engine.py lines 50-59): concatenate the
actions of every matching rule, in document order. -/
def evaluate_rules (now : Int) (rules : List Rule) (email : Email) : List Action :=
  rules.foldl
    (fun acc rule => if evaluate_rule now rule email then acc ++ rule.actions else acc)
    []

end GmailRules

namespace GmailRules

/-- An email snapshot as handed to the store (the dict consumed by
EmailDatabase.insert_or_update_email).  Key-absent string fields are the
`.get(key, "")` defaults, so a total record models the dict. -/
structure EmailData where
  id : String
  thread_id : String := ""
  from_email : String := ""
  to_email : String := ""
  subject : String := ""
  message : String := ""
  received_date : Option Int := none
  labels : List String := []
  deriving DecidableEq, Repr

/-- One stored row of the `emails` table (database.py lines 30-48).  The
`labels` column holds JSON text; since `json.dumps` and `json.loads` are
mutually inverse on lists of strings, the row keeps the list itself. -/
structure Row where
  email_id : String
  valid_from : Int
  thread_id : String
  from_email : String
  to_email : String
  subject : String
  message : String
  received_date : Option Int
  labels : List String
  valid_to : Option Int
  is_current : Bool
  deriving DecidableEq, Repr

/-- The table state, in insertion order. -/
abbrev DB := List Row

/-- The WHERE clause `email_id = %s AND is_current = TRUE`. -/
def isCurrentFor (email_id : String) (r : Row) : Bool :=
  r.email_id == email_id && r.is_current

/-- Set equality of two label lists, as Python `set(a) == set(b)`. -/
def labelSetEq (a b : List String) : Bool :=
  a.all (fun x => b.contains x) && b.all (fun x => a.contains x)

/-- EmailDatabase._has_email_changed (database.py lines 136-142): only the
label sets are compared. -/
def has_email_changed (existing : Row) (new_data : EmailData) : Bool :=
  !(labelSetEq existing.labels new_data.labels)

/-- The row INSERTed by EmailDatabase._insert_new_version (database.py
lines 144-164): `valid_to = NULL`, `is_current = TRUE`. -/
def newVersionRow (email_data : EmailData) (valid_from : Int) : Row :=
  { email_id := email_data.id
    valid_from := valid_from
    thread_id := email_data.thread_id
    from_email := email_data.from_email
    to_email := email_data.to_email
    subject := email_data.subject
    message := email_data.message
    received_date := email_data.received_date
    labels := email_data.labels
    valid_to := none
    is_current := true }

/-- EmailDatabase._insert_new_version (database.py lines 144-164): append
the new current row. -/
def insert_new_version (db : DB) (email_data : EmailData) (valid_from : Int) : DB :=
  db ++ [newVersionRow email_data valid_from]

/-- The UPDATE of database.py lines 114-121: close every current row of the
given id (`valid_to = now`, `is_current = FALSE`). -/
def closeCurrent (db : DB) (email_id : String) (now : Int) : DB :=
  db.map (fun r =>
    if isCurrentFor email_id r then { r with valid_to := some now, is_current := false }
    else r)

/-- EmailDatabase.insert_or_update_email (database.py lines 91-134), the
success path: fetch the current row, compare label sets, and either do
nothing, version, or insert the first row. -/
def insert_or_update_email (db : DB) (email_data : EmailData) (now : Int) : DB :=
  match db.find? (isCurrentFor email_data.id) with
  | some existing =>
    if has_email_changed existing email_data then
      insert_new_version (closeCurrent db email_data.id now) email_data now
    else db
  | none => insert_new_version db email_data now

/-- The projected dict built by get_all_emails / get_email_by_id
(database.py lines 187-200). -/
structure EmailOut where
  id : String
  thread_id : String
  from_email : String
  to_email : String
  subject : String
  message : String
  received_date : Option Int
  labels : List String
  deriving DecidableEq, Repr

/-- Row projection of database.py lines 189-200. -/
def rowToEmail (r : Row) : EmailOut :=
  { id := r.email_id, thread_id := r.thread_id, from_email := r.from_email
    to_email := r.to_email, subject := r.subject, message := r.message
    received_date := r.received_date, labels := r.labels }

/-- PostgreSQL `ORDER BY received_date DESC` treats NULL as larger than any
value, so NULLS FIRST is the default for a DESC sort: this relation says
the first key may come at or before the second in that order. -/
def pgDescOrder : Option Int → Option Int → Prop
  | none, _ => True
  | some _, none => False
  | some a, some b => b ≤ a

instance : DecidableRel pgDescOrder := fun a b =>
  match a, b with
  | none, _ => isTrue trivial
  | some _, none => isFalse (fun h => h)
  | some a, some b => inferInstanceAs (Decidable (b ≤ a))

/-- The row order of the `ORDER BY received_date DESC` in get_all_emails. -/
def rowOrder (r s : Row) : Prop := pgDescOrder r.received_date s.received_date

instance : DecidableRel rowOrder := fun r s =>
  inferInstanceAs (Decidable (pgDescOrder r.received_date s.received_date))

set_option linter.unnecessarySeqFocus false in
instance : IsTotal Row rowOrder where
  total r s := by
    unfold rowOrder
    cases r.received_date <;> cases s.received_date <;>
      simp [pgDescOrder] <;> omega

set_option linter.unnecessarySeqFocus false in
instance : IsTrans Row rowOrder where
  trans r s t := by
    unfold rowOrder
    cases r.received_date <;> cases s.received_date <;> cases t.received_date <;>
      simp [pgDescOrder] <;> omega

/-- The rows selected and ordered by get_all_emails (database.py lines
178-185): current rows, sorted `received_date DESC` (ties in an order the
SQL leaves unspecified; an insertion sort realises one such order). -/
def get_all_emails_rows (db : DB) : List Row :=
  List.insertionSort rowOrder (db.filter (fun r => r.is_current))

/-- EmailDatabase.get_all_emails (database.py lines 172-209), success
path. -/
def get_all_emails (db : DB) : List EmailOut :=
  (get_all_emails_rows db).map rowToEmail

/-- The explicit `ORDER BY received_date DESC NULLS LAST` used only by
get_email_by_id (database.py line 225). -/
def pgDescNullsLast : Option Int → Option Int → Prop
  | none, none => True
  | none, some _ => False
  | some _, none => True
  | some a, some b => b ≤ a

instance : DecidableRel pgDescNullsLast := fun a b =>
  match a, b with
  | none, none => isTrue trivial
  | none, some _ => isFalse (fun h => h)
  | some _, none => isTrue trivial
  | some a, some b => inferInstanceAs (Decidable (b ≤ a))

/-- The row order used by get_email_by_id. -/
def rowOrderNullsLast (r s : Row) : Prop :=
  pgDescNullsLast r.received_date s.received_date

instance : DecidableRel rowOrderNullsLast := fun r s =>
  inferInstanceAs (Decidable (pgDescNullsLast r.received_date s.received_date))

/-- EmailDatabase.get_email_by_id (database.py lines 211-248), success path:
current row of the id with `valid_to IS NULL`, newest first with nulls
last, LIMIT 1. -/
def get_email_by_id (db : DB) (email_id : String) : Option EmailOut :=
  (List.insertionSort rowOrderNullsLast
      (db.filter (fun r =>
        r.email_id == email_id && r.is_current && r.valid_to.isNone))).head?
    |>.map rowToEmail

/-- EmailDatabase.get_email_history (database.py lines 299-334): all rows of
an id ordered by `valid_from` ascending. -/
def get_email_history (db : DB) (email_id : String) : List Row :=
  List.insertionSort (fun r s => r.valid_from ≤ s.valid_from)
    (db.filter (fun r => r.email_id == email_id))

end GmailRules
namespace GmailRules

/-- A Python exception that escapes the storage or validation code. -/
inductive PyError where
  | operationalError
  | typeError
  deriving DecidableEq, Repr

/-- How one call into the storage backend behaves. -/
inductive UpsertMode where
  | connectError
  | writeError
  | okMode
  deriving DecidableEq, Repr

/-- Runtime behaviour of EmailDatabase.insert_or_update_email (database.py
lines 91-134) under backend failure.  `get_connection` (line 93) runs before
the `try`, so a connection failure raises the driver error to the caller; a
failure inside the `try` (any cursor.execute) is caught at lines 129-131,
printed and rolled back, so the call returns normally with the state
unchanged.  No `StorageError` type exists anywhere in the repository. -/
def insert_or_update_email_runtime (mode : UpsertMode) (db : DB)
    (email_data : EmailData) (now : Int) : Except PyError DB :=
  match mode with
  | .connectError => .error .operationalError
  | .writeError => .ok db
  | .okMode => .ok (insert_or_update_email db email_data now)

/-- EmailDatabase.insert_emails_batch (database.py lines 166-170): a plain
loop over insert_or_update_email with no exception handling of its own, so
an uncaught error aborts the remaining elements. -/
def insert_emails_batch_runtime (db : DB) (items : List (UpsertMode × EmailData))
    (now : Int) : Except PyError DB :=
  match items with
  | [] => .ok db
  | (mode, email) :: rest =>
    match insert_or_update_email_runtime mode db email now with
    | .error e => .error e
    | .ok db2 => insert_emails_batch_runtime db2 rest now

end GmailRules

namespace GmailRules

/-! Rule validator (src/src/rule_validator.py).  Rules arrive as parsed
JSON; the validator only ever reads the keys below, so a rule is a record
of optional fields (`none` = key absent).  Error and warning texts follow
the source messages with the quote characters left out. -/

/-- A condition as validated (rule_validator.py lines 138-194). -/
structure CondJ where
  field : Option String := none
  predicate : Option String := none
  value : Option CVal := none
  unit : Option String := none
  deriving DecidableEq, Repr

/-- A JSON value sitting where the validator expects an array. -/
inductive CondList where
  | notList
  | lst (cs : List CondJ)
  deriving DecidableEq, Repr

/-- An action as validated (rule_validator.py lines 196-221). -/
structure ActJ where
  type : Option String := none
  destination : Option String := none
  deriving DecidableEq, Repr

/-- A JSON value sitting where the validator expects the actions array. -/
inductive ActList where
  | notList
  | lst (as_ : List ActJ)
  deriving DecidableEq, Repr

/-- A rule as validated (rule_validator.py lines 98-136). -/
structure RuleJ where
  name : Option String := none
  predicate : Option String := none
  conditions : Option CondList := none
  actions : Option ActList := none
  deriving DecidableEq, Repr

def SUPPORTED_FIELDS : List (String × String) :=
  [("from", "string"), ("subject", "string"), ("message", "string"),
   ("received_date", "date")]

def STRING_PREDICATES : List String :=
  ["contains", "does_not_contain", "equals", "does_not_equal"]

def DATE_PREDICATES : List String := ["less_than", "greater_than"]

def RULE_PREDICATES : List String := ["all", "any"]

def SUPPORTED_ACTIONS : List String :=
  ["mark_as_read", "mark_as_unread", "move_message"]

def VALID_DATE_UNITS : List String := ["days", "months"]

def MAX_CONDITIONS : Nat := 10
def MAX_ACTIONS : Nat := 5
def MAX_RULES : Nat := 100

end GmailRules
namespace GmailRules

/-- RuleValidator._validate_condition (rule_validator.py lines 138-194).
The presence loop reports only the first missing key and returns; an
unsupported field returns after its error.  For a date condition the
numeric check runs `int(value)`: a bad string raises `ValueError`, which is
caught ("must be numeric"), while a JSON null raises `TypeError`, which
nothing catches. -/
def validate_condition (condition : CondJ) (rule_name : String) (idx : Nat) :
    Except PyError (List String) :=
  match condition.field, condition.predicate, condition.value with
  | none, _, _ =>
    .ok [s!"ERROR: Rule {rule_name}, Condition #{idx + 1}: Missing field"]
  | some _, none, _ =>
    .ok [s!"ERROR: Rule {rule_name}, Condition #{idx + 1}: Missing predicate"]
  | some _, some _, none =>
    .ok [s!"ERROR: Rule {rule_name}, Condition #{idx + 1}: Missing value"]
  | some field, some predicate, some value =>
    match SUPPORTED_FIELDS.lookup field with
    | none =>
      .ok [s!"ERROR: Rule {rule_name}, Condition #{idx + 1}: Invalid field {field}. Supported: from, subject, message, received_date"]
    | some field_type =>
      if field_type = "string" then
        .ok (if STRING_PREDICATES.contains predicate then []
          else [s!"ERROR: Rule {rule_name}, Condition #{idx + 1}: Invalid predicate {predicate} for string field"])
      else
        let e1 := if DATE_PREDICATES.contains predicate then []
          else [s!"ERROR: Rule {rule_name}, Condition #{idx + 1}: Invalid predicate {predicate} for date field"]
        let e2 := match condition.unit with
          | none =>
            [s!"ERROR: Rule {rule_name}, Condition #{idx + 1}: Date conditions require unit (days/months)"]
          | some u =>
            if VALID_DATE_UNITS.contains u then []
            else [s!"ERROR: Rule {rule_name}, Condition #{idx + 1}: Invalid unit {u}"]
        match value with
        | .vnone => .error .typeError
        | .vi n =>
          .ok (e1 ++ e2 ++ (if n ≤ 0 then
            [s!"ERROR: Rule {rule_name}, Condition #{idx + 1}: Date value must be positive"] else []))
        | .vs s =>
          match pyInt s with
          | none =>
            .ok (e1 ++ e2 ++ [s!"ERROR: Rule {rule_name}, Condition #{idx + 1}: Date value must be numeric"])
          | some n =>
            .ok (e1 ++ e2 ++ (if n ≤ 0 then
              [s!"ERROR: Rule {rule_name}, Condition #{idx + 1}: Date value must be positive"] else []))

/-- RuleValidator._validate_action (rule_validator.py lines 196-221). -/
def validate_action (action : ActJ) (rule_name : String) (idx : Nat) : List String :=
  match action.type with
  | none => [s!"ERROR: Rule {rule_name}, Action #{idx + 1}: Missing type"]
  | some action_type =>
    if !(SUPPORTED_ACTIONS.contains action_type) then
      [s!"ERROR: Rule {rule_name}, Action #{idx + 1}: Invalid action {action_type}"]
    else if action_type = "move_message" then
      match action.destination with
      | none =>
        [s!"ERROR: Rule {rule_name}, Action #{idx + 1}: move_message requires destination"]
      | some d =>
        if d == "" || pyStrip d == "" then
          [s!"ERROR: Rule {rule_name}, Action #{idx + 1}: destination cannot be empty"]
        else []
    else []

/-- RuleValidator._check_action_conflicts (rule_validator.py lines 223-248).
When several move actions with more than one distinct destination value
include a missing destination, the source runs
`", ".join(destinations)` over a `None` and raises `TypeError`. -/
def check_action_conflicts (actions : List ActJ) (rule_name : String) :
    Except PyError (List String × List String) :=
  let action_types := actions.map (fun a => a.type)
  let errs :=
    if action_types.contains (some "mark_as_read") &&
        action_types.contains (some "mark_as_unread") then
      [s!"ERROR: Rule {rule_name}: Cannot have both mark_as_read and mark_as_unread"]
    else []
  let w1 :=
    if 1 < action_types.count (some "mark_as_read") then
      [s!"WARNING: Rule {rule_name}: Duplicate mark_as_read actions"]
    else []
  let w2 :=
    if 1 < action_types.count (some "mark_as_unread") then
      [s!"WARNING: Rule {rule_name}: Duplicate mark_as_unread actions"]
    else []
  let move_actions := actions.filter (fun a => a.type == some "move_message")
  if 1 < move_actions.length then
    let destinations := move_actions.map (fun a => a.destination)
    if 1 < destinations.dedup.length then
      if destinations.any (fun d => d.isNone) then .error .typeError
      else
        let joined := String.intercalate ", " (destinations.filterMap (fun d => d))
        .ok (errs, w1 ++ w2 ++
          [s!"WARNING: Rule {rule_name}: Multiple move actions - email will have all labels: {joined}"])
    else .ok (errs, w1 ++ w2)
  else .ok (errs, w1 ++ w2)

/-- The enumerated loop over _validate_condition in rule_validator.py lines
123-124. -/
def validate_conditions_list (cs : List CondJ) (rule_name : String) (i : Nat) :
    Except PyError (List String) :=
  match cs with
  | [] => .ok []
  | c :: rest =>
    match validate_condition c rule_name i with
    | .error e => .error e
    | .ok es =>
      match validate_conditions_list rest rule_name (i + 1) with
      | .error e => .error e
      | .ok es2 => .ok (es ++ es2)

/-- The enumerated loop over _validate_action in rule_validator.py lines
134-135. -/
def validate_actions_list (as_ : List ActJ) (rule_name : String) (i : Nat) :
    List String :=
  match as_ with
  | [] => []
  | a :: rest => validate_action a rule_name i ++ validate_actions_list rest rule_name (i + 1)

/-- RuleValidator._validate_rule (rule_validator.py lines 98-136): the
errors of one rule, in source order (missing keys, predicate, conditions,
actions, cross-action conflicts), with the warnings of the conflict
check. -/
def validate_rule (rule : RuleJ) (rule_index : Nat) :
    Except PyError (List String × List String) :=
  let rule_name := rule.name.getD s!"Rule #{rule_index + 1}"
  let missing :=
    (if rule.name.isNone then [s!"ERROR: Rule {rule_name}: Missing name"] else []) ++
    (if rule.predicate.isNone then [s!"ERROR: Rule {rule_name}: Missing predicate"] else []) ++
    (if rule.conditions.isNone then [s!"ERROR: Rule {rule_name}: Missing conditions"] else []) ++
    (if rule.actions.isNone then [s!"ERROR: Rule {rule_name}: Missing actions"] else [])
  let predErrs :=
    match rule.predicate with
    | none => []
    | some p =>
      if RULE_PREDICATES.contains (pyLower p) then []
      else [s!"ERROR: Rule {rule_name}: Invalid predicate {p}. Must be all or any"]
  let condPart : Except PyError (List String) :=
    match rule.conditions with
    | none => .ok []
    | some .notList => .ok [s!"ERROR: Rule {rule_name}: Must have at least one condition"]
    | some (.lst cs) =>
      if cs.length = 0 then
        .ok [s!"ERROR: Rule {rule_name}: Must have at least one condition"]
      else if MAX_CONDITIONS < cs.length then
        let n := cs.length
        .ok [s!"ERROR: Rule {rule_name}: Too many conditions ({n})"]
      else validate_conditions_list cs rule_name 0
  let actPart : Except PyError (List String × List String) :=
    match rule.actions with
    | none => .ok ([], [])
    | some .notList => .ok ([s!"ERROR: Rule {rule_name}: Must have at least one action"], [])
    | some (.lst as_) =>
      if as_.length = 0 then
        .ok ([s!"ERROR: Rule {rule_name}: Must have at least one action"], [])
      else if MAX_ACTIONS < as_.length then
        let n := as_.length
        .ok ([s!"ERROR: Rule {rule_name}: Too many actions ({n})"], [])
      else
        let aErrs := validate_actions_list as_ rule_name 0
        match check_action_conflicts as_ rule_name with
        | .error e => .error e
        | .ok (cErrs, cWarns) => .ok (aErrs ++ cErrs, cWarns)
  match condPart with
  | .error e => .error e
  | .ok condErrs =>
    match actPart with
    | .error e => .error e
    | .ok (actErrs, warns) =>
      .ok (missing ++ predErrs ++ condErrs ++ actErrs, warns)

/-- The loop over _validate_rule in rule_validator.py lines 90-91,
concatenating per-rule errors and warnings in order. -/
def validate_rules_list (rules : List RuleJ) (i : Nat) :
    Except PyError (List String × List String) :=
  match rules with
  | [] => .ok ([], [])
  | r :: rest =>
    match validate_rule r i with
    | .error e => .error e
    | .ok (es, ws) =>
      match validate_rules_list rest (i + 1) with
      | .error e => .error e
      | .ok (es2, ws2) => .ok (es ++ es2, ws ++ ws2)

end GmailRules
namespace GmailRules

/-- A rule-set source as the validator and the engine open it: either one
of the structural failure shapes of rule_validator.py lines 63-81, or a
parsed document with a rules array. -/
inductive RuleSource where
  | fileNotFound (rules_file : String)
  | invalidJson
  | notRulesObject
  | rulesNotArray
  | doc (rules : List RuleJ)
  deriving DecidableEq, Repr

/-- How one call of validate_rules_file terminates. -/
inductive ValidateResult where
  | returnedOk
  | returnedFalse
  | raisedValidationError
  | raisedPyError (e : PyError)
  deriving DecidableEq, Repr

/-- The observable outcome of RuleValidator.validate_rules_file: how the
call terminated plus the `self.errors` / `self.warnings` lists.  When an
uncaught `TypeError` escapes, nothing ever reads the two lists, so the
model leaves them empty there. -/
structure ValidateOutput where
  result : ValidateResult
  errors : List String
  warnings : List String
  deriving DecidableEq, Repr

/-- RuleValidator.validate_rules_file (rule_validator.py lines 58-96).  The
four structural failures add one error and `return False` without raising;
an empty rules array warns and returns True; otherwise per-rule errors
accumulate across the whole list and RuleValidationError is raised exactly
when that list ends up non-empty. -/
def validate_rules_file (src : RuleSource) : ValidateOutput :=
  match src with
  | .fileNotFound f => ⟨.returnedFalse, [s!"ERROR: Rules file not found: {f}"], []⟩
  | .invalidJson => ⟨.returnedFalse, ["ERROR: Invalid JSON"], []⟩
  | .notRulesObject => ⟨.returnedFalse, ["ERROR: Rules file must contain rules array"], []⟩
  | .rulesNotArray => ⟨.returnedFalse, ["ERROR: rules must be an array"], []⟩
  | .doc rules =>
    if rules.length = 0 then ⟨.returnedOk, [], ["WARNING: No rules defined"]⟩
    else
      let n := rules.length
      let sizeErrs :=
        if MAX_RULES < rules.length then [s!"ERROR: Too many rules: {n} (max: 100)"]
        else []
      match validate_rules_list rules 0 with
      | .error e => ⟨.raisedPyError e, [], []⟩
      | .ok (es, ws) =>
        let errors := sizeErrs ++ es
        if errors.isEmpty then ⟨.returnedOk, errors, ws⟩
        else ⟨.raisedValidationError, errors, ws⟩

/-- What RuleEngine.load_rules (rule_engine.py lines 40-48) hands back:
`data.get("rules", [])`, which is the raw rules value when present (even a
non-list), and `[]` when the file is missing, unparseable, or has no rules
key (every exception is caught and turned into `[]`). -/
inductive LoadedRules where
  | rulesList (rules : List RuleJ)
  | nonListValue
  deriving DecidableEq, Repr

/-- RuleEngine.load_rules over a rule-set source. -/
def load_rules (src : RuleSource) : LoadedRules :=
  match src with
  | .doc rules => .rulesList rules
  | .rulesNotArray => .nonListValue
  | .fileNotFound _ => .rulesList []
  | .invalidJson => .rulesList []
  | .notRulesObject => .rulesList []

/-- The outcome of RuleEngine.__init__. -/
inductive EngineInit where
  | engine (rules : LoadedRules)
  | failedValidation (errors warnings : List String)
  | failedPyError (e : PyError)
  deriving DecidableEq, Repr

/-- RuleEngine.__init__ (rule_engine.py lines 13-38): run the validator,
re-raise RuleValidationError, let any other exception propagate, and
otherwise load the rules while ignoring the boolean the validator
returned. -/
def rule_engine_init (src : RuleSource) : EngineInit :=
  let v := validate_rules_file src
  match v.result with
  | .raisedValidationError => .failedValidation v.errors v.warnings
  | .raisedPyError e => .failedPyError e
  | .returnedOk => .engine (load_rules src)
  | .returnedFalse => .engine (load_rules src)

end GmailRules

namespace GmailRules

/-! Concrete inputs reused by witnesses and counterexamples. -/

/-- The sample email of the test fixtures (tests/conftest.py). -/
def sampleEmail : EmailData :=
  { id := "test_email_001"
    thread_id := "thread_001"
    from_email := "sender@example.com"
    to_email := "receiver@example.com"
    subject := "Test Subject"
    message := "Test message content"
    received_date := some 1700000000
    labels := ["INBOX", "UNREAD"] }

/-- The same email with only the subject changed
(tests/test_database.py, test_subject_change_not_tracked). -/
def sampleEmailChangedSubject : EmailData :=
  { sampleEmail with subject := "Changed Subject" }

/-- Store state after the first upsert of the sample email. -/
def sampleDb1 : DB := insert_or_update_email [] sampleEmail 100

/-- Store state after upserting the subject-only change on top. -/
def sampleDb2 : DB := insert_or_update_email sampleDb1 sampleEmailChangedSubject 200

/-- A current row with a NULL received_date. -/
def rowNullDate : Row :=
  { email_id := "a"
    valid_from := 0
    thread_id := ""
    from_email := ""
    to_email := ""
    subject := ""
    message := ""
    received_date := none
    labels := []
    valid_to := none
    is_current := true }

/-- A current row with received_date 5, distinct id. -/
def rowDate5 : Row := { rowNullDate with email_id := "b", received_date := some 5 }

end GmailRules

namespace GmailRules

/-- C4.  The claim reads: `greater_than 7 days` matches an email received 3
days ago and does not match one received 10 days ago.  On the code it is
the other way round: the 3-day-old email evaluates to false and the
10-day-old one to true, refuting the claim at this concrete input. -/
theorem c4_counterexample :
    evaluate_date_condition 1000000000 (some (1000000000 - 3 * 86400))
      "greater_than" (.vi 7) "days" = false
  ∧ evaluate_date_condition 1000000000 (some (1000000000 - 10 * 86400))
      "greater_than" (.vi 7) "days" = true := by
  decide

/-- C4 (amended).  For any current time, the date condition
`greater_than 7 days` does not match an email received 3 days ago and does
match one received 10 days ago: `greater_than` selects emails older than
the threshold. -/
theorem c4_greater_than_seven_days (now : Int) :
    evaluate_date_condition now (some (now - 3 * 86400))
      "greater_than" (.vi 7) "days" = false
  ∧ evaluate_date_condition now (some (now - 10 * 86400))
      "greater_than" (.vi 7) "days" = true := by
  refine ⟨?_, ?_⟩ <;> simp [evaluate_date_condition, pyIntOfCVal]

/-- C7.  For every email timestamp and positive count n, a `days` condition
uses the threshold `now - n` days and a `months` condition the threshold
`now - 30 n` days; `less_than` holds exactly when the email is strictly
newer than the threshold and `greater_than` exactly when it is strictly
older. -/
theorem c7_date_threshold_semantics (now email_time n : Int) (_h : 0 < n) :
    (evaluate_date_condition now (some email_time) "less_than" (.vi n) "days"
      = decide (now - n * 86400 < email_time))
  ∧ (evaluate_date_condition now (some email_time) "greater_than" (.vi n) "days"
      = decide (email_time < now - n * 86400))
  ∧ (evaluate_date_condition now (some email_time) "less_than" (.vi n) "months"
      = decide (now - n * 30 * 86400 < email_time))
  ∧ (evaluate_date_condition now (some email_time) "greater_than" (.vi n) "months"
      = decide (email_time < now - n * 30 * 86400)) := by
  refine ⟨?_, ?_, ?_, ?_⟩ <;> simp [evaluate_date_condition, pyIntOfCVal]

/-- Witness for C7 at a concrete input. -/
theorem c7_date_threshold_semantics_witness :
    0 < (7 : Int)
  ∧ evaluate_date_condition 0 (some (-700000)) "less_than" (.vi 7) "days"
      = decide ((0 : Int) - 7 * 86400 < (-700000 : Int)) :=
  ⟨by decide, (c7_date_threshold_semantics 0 (-700000) 7 (by decide)).1⟩

end GmailRules
namespace GmailRules

/-- C10.  A rule with an empty conditions list matches every email under
predicate `all` (vacuous truth, firing all its actions through
evaluate_rules) and no email under `any`; evaluate_rule itself has no
guard, while the validator rejects such a rule with a
"must have at least one condition" error. -/
theorem c10_empty_conditions (now : Int) (email : Email) (name : String)
    (actions : List Action) :
    evaluate_rule now ⟨name, "all", [], actions⟩ email = true
  ∧ evaluate_rule now ⟨name, "any", [], actions⟩ email = false
  ∧ evaluate_rules now [⟨name, "all", [], actions⟩] email = actions
  ∧ (∀ (nm : String) (i : Nat),
      validate_rule
        { name := some nm
          predicate := some "all"
          conditions := some (.lst [])
          actions := some (.lst [{ type := some "mark_as_read" }]) } i
      = .ok ([s!"ERROR: Rule {nm}: Must have at least one condition"], [])) := by
  refine ⟨rfl, rfl, ?_, fun nm i => rfl⟩
  have hall : pyLower "all" = "all" := rfl
  simp [evaluate_rules, evaluate_rule, hall]

/-- Restatement of the string-condition semantics in the words of C9: an
empty or whitespace-only condition value (after trimming) is false for
every predicate; otherwise both sides are lowercased and trimmed,
`contains` / `does_not_contain` test substring containment and `equals` /
`does_not_equal` exact equality of the normalised strings. -/
def string_condition_claim (email_value : Option String) (predicate : String)
    (condition_value : String) : Bool :=
  let ev := pyStrip (pyLower (email_value.getD ""))
  let cv := pyStrip (pyLower condition_value)
  if cv = "" then false
  else if predicate = "contains" then pyIn cv ev
  else if predicate = "does_not_contain" then !(pyIn cv ev)
  else if predicate = "equals" then ev == cv
  else if predicate = "does_not_equal" then !(ev == cv)
  else false

/-- C9.  For the three string fields, condition evaluation agrees with the
claimed semantics for every email and condition value. -/
theorem c9_string_condition_spec (field : String)
    (h : field = "from" ∨ field = "subject" ∨ field = "message")
    (now : Int) (email : Email) (predicate : String) (v : String)
    (u : Option String) :
    evaluate_condition now ⟨field, predicate, .vs v, u⟩ email
      = string_condition_claim (emailGetStr email field) predicate v := by
  have hf : ¬ (field = "received_date") := by
    rcases h with h | h | h <;> subst h <;> decide
  show (if field = "received_date" then _ else _) = _
  rw [if_neg hf]
  rfl

/-- Witness for C9 at a concrete input. -/
theorem c9_string_condition_spec_witness :
    ("from" = "from" ∨ "from" = "subject" ∨ "from" = "message")
  ∧ evaluate_condition 0 ⟨"from", "contains", .vs "Boss", none⟩
      { from_email := some "the-boss@co.com" }
      = string_condition_claim
          (emailGetStr { from_email := some "the-boss@co.com" } "from")
          "contains" "Boss" :=
  ⟨Or.inl rfl,
   c9_string_condition_spec "from" (Or.inl rfl) 0
     { from_email := some "the-boss@co.com" } "contains" "Boss" none⟩

end GmailRules
namespace GmailRules

/-- C2.  Evaluation of the code at the failing input of the repository's
own test (test_database.py, test_subject_change_not_tracked): an upsert
whose label set equals the current row and whose subject differs creates
zero new versions (first half of the claim), but it also performs no write
at all, so current-state reads keep exposing the OLD subject, not the
latest one — the second half of the claim, and the test's final assertion,
fail on the code. -/
theorem c2_subject_change_not_exposed :
    labelSetEq sampleEmail.labels sampleEmailChangedSubject.labels = true
  ∧ sampleEmailChangedSubject.subject = "Changed Subject"
  ∧ sampleDb2 = sampleDb1
  ∧ (get_email_history sampleDb2 "test_email_001").length = 1
  ∧ (get_email_by_id sampleDb2 "test_email_001").map (fun e => e.subject)
      = some "Test Subject"
  ∧ ((get_all_emails sampleDb2).map (fun e => e.subject) = ["Test Subject"]) := by
  decide

/-- The ordering C5 claims for currentAll: each adjacent pair is newest
first with null received_at placed last. -/
def nullsLastStep : Option Int → Option Int → Bool
  | none, some _ => false
  | none, none => true
  | some _, none => true
  | some a, some b => b ≤ a

/-- The list-level ordering C5 claims. -/
def nullsLastOrdered : List (Option Int) → Bool
  | [] => true
  | [_] => true
  | a :: b :: rest => nullsLastStep a b && nullsLastOrdered (b :: rest)

/-- C5.  With two current rows, one with a NULL received_date, the rows
come back with the NULL date FIRST (the PostgreSQL default for DESC),
whichever side of the table it sits on — so the claimed
newest-first-nulls-last ordering is violated at this concrete input. -/
theorem c5_counterexample :
    (get_all_emails [rowDate5, rowNullDate]).map (fun e => e.received_date)
      = [none, some 5]
  ∧ nullsLastOrdered
      ((get_all_emails [rowDate5, rowNullDate]).map (fun e => e.received_date))
      = false := by
  decide

end GmailRules
namespace GmailRules

/-- Unfolding closeCurrent one row at a time. -/
theorem closeCurrent_cons (a : Row) (l : List Row) (i : String) (now : Int) :
    closeCurrent (a :: l) i now =
      (if isCurrentFor i a then { a with valid_to := some now, is_current := false }
       else a) :: closeCurrent l i now := rfl

/-- A row of the closed batch never satisfies the current-row test for the
closed id: the UPDATE flips `is_current` off on every matching row, and
non-matching rows failed the test already. -/
theorem not_isCurrentFor_of_mem_closeCurrent {db : DB} {i : String} {now : Int}
    {x : Row} (hx : x ∈ closeCurrent db i now) : ¬ isCurrentFor i x = true := by
  unfold closeCurrent at hx
  rw [List.mem_map] at hx
  obtain ⟨a, _, rfl⟩ := hx
  cases h : isCurrentFor i a with
  | true => simp [isCurrentFor]
  | false => simp [h]

/-- After closing, no current row of the closed id is left. -/
theorem filter_closeCurrent_self (db : DB) (i : String) (now : Int) :
    (closeCurrent db i now).filter (isCurrentFor i) = [] :=
  List.filter_eq_nil_iff.mpr fun _ hx => not_isCurrentFor_of_mem_closeCurrent hx

/-- After closing, a lookup of a current row for the closed id fails. -/
theorem find?_closeCurrent_self (db : DB) (i : String) (now : Int) :
    (closeCurrent db i now).find? (isCurrentFor i) = none :=
  List.find?_eq_none.mpr fun _ hx => not_isCurrentFor_of_mem_closeCurrent hx

/-- Closing the rows of one id leaves the current rows of every other id
untouched. -/
theorem filter_closeCurrent_other (db : DB) (i : String) (now : Int)
    (j : String) (hij : j ≠ i) :
    (closeCurrent db i now).filter (isCurrentFor j) = db.filter (isCurrentFor j) := by
  induction db with
  | nil => rfl
  | cons a l ih =>
    rw [closeCurrent_cons]
    by_cases h : isCurrentFor i a = true
    · have ha : a.email_id = i := by
        have h' := h
        unfold isCurrentFor at h'
        exact eq_of_beq (Bool.and_elim_left h')
      rw [if_pos h]
      have h1 : isCurrentFor j { a with valid_to := some now, is_current := false } = false := by
        simp [isCurrentFor]
      have h2 : isCurrentFor j a = false := by
        unfold isCurrentFor
        have hne : (a.email_id == j) = false := by
          rw [ha]
          exact beq_false_of_ne (fun hh => hij hh.symm)
        simp [hne]
      rw [List.filter_cons, List.filter_cons, h1, h2]
      simpa using ih
    · rw [if_neg h, List.filter_cons, List.filter_cons]
      cases hj : isCurrentFor j a <;> simp [ih]

/-- The fresh row satisfies the current-row test exactly for its own id. -/
theorem isCurrentFor_newVersionRow (e : EmailData) (vf : Int) (j : String) :
    isCurrentFor j (newVersionRow e vf) = (e.id == j) := by
  simp [isCurrentFor, newVersionRow]

/-- A find? that fails leaves nothing for filter either. -/
theorem filter_eq_nil_of_find?_none {p : Row → Bool} {l : List Row}
    (h : l.find? p = none) : l.filter p = [] :=
  List.filter_eq_nil_iff.mpr fun x hx => List.find?_eq_none.mp h x hx

/-- At most one current row per id (the C6 invariant). -/
def at_most_one_current (db : DB) : Prop :=
  ∀ email_id : String, (db.filter (isCurrentFor email_id)).length ≤ 1

/-- C6.  Every store operation — first insert, label-change versioning and
the unchanged no-op — preserves the invariant that each id has at most one
current row. -/
theorem c6_upsert_preserves_at_most_one_current (db : DB) (e : EmailData)
    (now : Int) (h : at_most_one_current db) :
    at_most_one_current (insert_or_update_email db e now) := by
  intro j
  cases hfind : db.find? (isCurrentFor e.id) with
  | none =>
    simp only [insert_or_update_email, hfind, insert_new_version]
    rw [List.filter_append]
    by_cases hj : e.id = j
    · have hnil : db.filter (isCurrentFor j) = [] := by
        subst hj
        exact filter_eq_nil_of_find?_none hfind
      rw [hnil]
      simpa using List.length_filter_le _ _
    · have hrow : isCurrentFor j (newVersionRow e now) = false := by
        rw [isCurrentFor_newVersionRow]
        exact beq_false_of_ne hj
      simp only [List.filter_cons, List.filter_nil, hrow]
      simpa using h j
  | some ex =>
    by_cases hch : has_email_changed ex e = true
    · simp only [insert_or_update_email, hfind, if_pos hch, insert_new_version]
      rw [List.filter_append]
      by_cases hj : e.id = j
      · rw [← hj, filter_closeCurrent_self]
        simpa using List.length_filter_le _ _
      · rw [filter_closeCurrent_other db e.id now j (fun hh => hj hh.symm)]
        have hrow : isCurrentFor j (newVersionRow e now) = false := by
          rw [isCurrentFor_newVersionRow]
          exact beq_false_of_ne hj
        simp only [List.filter_cons, List.filter_nil, hrow]
        simpa using h j
    · simp only [insert_or_update_email, hfind, if_neg hch]
      exact h j

/-- Witness for C6 at a concrete input: one upsert into the empty store. -/
theorem c6_upsert_preserves_at_most_one_current_witness :
    ((insert_or_update_email [] sampleEmail 100).filter
      (isCurrentFor "test_email_001")).length ≤ 1 :=
  c6_upsert_preserves_at_most_one_current [] sampleEmail 100
    (fun _ => by simp) "test_email_001"

end GmailRules
namespace GmailRules

/-- Set equality of labels is reflexive. -/
theorem labelSetEq_refl (l : List String) : labelSetEq l l = true := by
  unfold labelSetEq
  rw [Bool.and_self]
  rw [List.all_eq_true]
  intro x hx
  exact List.elem_eq_true_of_mem hx

/-- C8.  First conjunct: an upsert whose snapshot has the same label set as
the current row of its id is a no-op, leaving the store untouched.  Second
conjunct: re-applying any snapshot immediately after applying it never
writes again, whatever the later call time — upsert is idempotent. -/
theorem c8_upsert_idempotent :
    (∀ (db : DB) (e : EmailData) (now : Int) (r : Row),
        db.find? (isCurrentFor e.id) = some r →
        labelSetEq r.labels e.labels = true →
        insert_or_update_email db e now = db)
  ∧ (∀ (db : DB) (e : EmailData) (t1 t2 : Int),
        insert_or_update_email (insert_or_update_email db e t1) e t2
          = insert_or_update_email db e t1) := by
  have h1 : ∀ (db : DB) (e : EmailData) (now : Int) (r : Row),
      db.find? (isCurrentFor e.id) = some r →
      labelSetEq r.labels e.labels = true →
      insert_or_update_email db e now = db := by
    intro db e now r hfind hlab
    simp only [insert_or_update_email, hfind, has_email_changed, hlab]
    simp
  refine ⟨h1, ?_⟩
  intro db e t1 t2
  obtain ⟨r', hfind', hlab'⟩ :
      ∃ r', (insert_or_update_email db e t1).find? (isCurrentFor e.id) = some r'
        ∧ labelSetEq r'.labels e.labels = true := by
    cases hfind : db.find? (isCurrentFor e.id) with
    | none =>
      refine ⟨newVersionRow e t1, ?_, labelSetEq_refl _⟩
      simp only [insert_or_update_email, hfind, insert_new_version]
      rw [List.find?_append, hfind]
      have hp : isCurrentFor e.id (newVersionRow e t1) = true := by
        rw [isCurrentFor_newVersionRow]
        exact beq_self_eq_true e.id
      simp [List.find?_cons_of_pos _ hp]
    | some ex =>
      by_cases hch : has_email_changed ex e = true
      · refine ⟨newVersionRow e t1, ?_, labelSetEq_refl _⟩
        simp only [insert_or_update_email, hfind, if_pos hch, insert_new_version]
        rw [List.find?_append, find?_closeCurrent_self]
        have hp : isCurrentFor e.id (newVersionRow e t1) = true := by
          rw [isCurrentFor_newVersionRow]
          exact beq_self_eq_true e.id
        simp [List.find?_cons_of_pos _ hp]
      · have hlab : labelSetEq ex.labels e.labels = true := by
          unfold has_email_changed at hch
          cases hq : labelSetEq ex.labels e.labels
          · rw [hq] at hch
            simp at hch
          · rfl
        refine ⟨ex, ?_, hlab⟩
        simp only [insert_or_update_email, hfind, if_neg hch]
  exact h1 _ e t2 r' hfind' hlab'

/-- A stored current row with labels listed in one order. -/
def labelDbRow : Row :=
  { rowNullDate with email_id := "w8", labels := ["INBOX", "UNREAD"] }

/-- A snapshot with the same labels in another order. -/
def labelEmail : EmailData := { id := "w8", labels := ["UNREAD", "INBOX"] }

/-- Witness for C8 at a concrete input: same label set, different order,
upsert leaves the store unchanged. -/
theorem c8_upsert_idempotent_witness :
    insert_or_update_email [labelDbRow] labelEmail 7 = [labelDbRow] :=
  c8_upsert_idempotent.1 [labelDbRow] labelEmail 7 labelDbRow (by rfl) (by decide)

end GmailRules
namespace GmailRules

/-- Every store operation keeps current rows at `valid_to = NULL`: new rows
are inserted that way and closing sets `valid_to` and clears `is_current`
in the same UPDATE. -/
theorem valid_to_none_of_mem_upsert (db : DB) (e : EmailData) (now : Int)
    (hdb : ∀ r ∈ db, r.is_current = true → r.valid_to = none) :
    ∀ r' ∈ insert_or_update_email db e now, r'.is_current = true → r'.valid_to = none := by
  intro r' hr' hcur
  cases hfind : db.find? (isCurrentFor e.id) with
  | none =>
    simp only [insert_or_update_email, hfind, insert_new_version] at hr'
    rw [List.mem_append] at hr'
    rcases hr' with h | h
    · exact hdb r' h hcur
    · simp at h
      subst h
      rfl
  | some ex =>
    by_cases hch : has_email_changed ex e = true
    · simp only [insert_or_update_email, hfind, if_pos hch, insert_new_version] at hr'
      rw [List.mem_append] at hr'
      rcases hr' with h | h
      · unfold closeCurrent at h
        rw [List.mem_map] at h
        obtain ⟨a, ha, rfl⟩ := h
        by_cases hc : isCurrentFor e.id a = true
        · rw [if_pos hc] at hcur
          simp at hcur
        · rw [if_neg hc] at hcur ⊢
          exact hdb a ha hcur
      · simp at h
        subst h
        rfl
    · simp only [insert_or_update_email, hfind, if_neg hch] at hr'
      exact hdb r' hr' hcur

/-- C5 (amended).  On a store whose current rows have `valid_to = NULL`
(an invariant every upsert preserves, fourth conjunct), currentAll selects
exactly the rows with `is_current = true`, none carrying a non-null
`valid_to`, ordered newest `received_at` first — but with NULL dates
placed FIRST, the PostgreSQL default for a DESC sort, not last. -/
theorem c5_current_all_rows (db : DB)
    (hdb : ∀ r ∈ db, r.is_current = true → r.valid_to = none) :
    (∀ r : Row, r ∈ get_all_emails_rows db ↔ (r ∈ db ∧ r.is_current = true))
  ∧ (∀ r ∈ get_all_emails_rows db, r.valid_to = none)
  ∧ List.Sorted rowOrder (get_all_emails_rows db)
  ∧ (∀ (e : EmailData) (now : Int), ∀ r' ∈ insert_or_update_email db e now,
      r'.is_current = true → r'.valid_to = none) := by
  have hmem : ∀ r : Row, r ∈ get_all_emails_rows db ↔ (r ∈ db ∧ r.is_current = true) := by
    intro r
    unfold get_all_emails_rows
    rw [List.mem_insertionSort, List.mem_filter]
  refine ⟨hmem, ?_, ?_, ?_⟩
  · intro r hr
    obtain ⟨hin, hcur⟩ := (hmem r).mp hr
    exact hdb r hin hcur
  · exact List.sorted_insertionSort rowOrder _
  · intro e now
    exact valid_to_none_of_mem_upsert db e now hdb

/-- Witness for C5 (amended) at a concrete one-row store. -/
theorem c5_current_all_rows_witness :
    rowNullDate ∈ get_all_emails_rows [rowNullDate]
      ↔ (rowNullDate ∈ [rowNullDate] ∧ rowNullDate.is_current = true) :=
  (c5_current_all_rows [rowNullDate] (by decide)).1 rowNullDate

/-- C3.  At a concrete input, a write failure inside upsert does NOT raise:
the call returns normally with the rolled-back state and the error is
discarded (first conjunct), and in the batch loop a connection failure of
the first element aborts the whole loop, so the remaining element is never
processed (second conjunct).  No StorageError is ever surfaced — the type
does not exist in the repository. -/
theorem c3_counterexample :
    insert_or_update_email_runtime .writeError [] sampleEmail 100 = .ok []
  ∧ insert_emails_batch_runtime []
      [(.connectError, sampleEmail), (.okMode, sampleEmailChangedSubject)] 100
      = .error .operationalError :=
  ⟨rfl, rfl⟩

/-- C3 (amended).  A write-phase failure is caught inside upsert: the call
returns normally with the state rolled back and no error surfaces; a
connection failure raises the driver error.  In the batch loop an uncaught
connection failure aborts the remaining elements, while a caught
write-phase failure of one element leaves the rest processed. -/
theorem c3_storage_error_handling (db : DB) (e : EmailData) (now : Int) :
    insert_or_update_email_runtime .writeError db e now = .ok db
  ∧ insert_or_update_email_runtime .connectError db e now = .error .operationalError
  ∧ (∀ rest : List (UpsertMode × EmailData),
      insert_emails_batch_runtime db ((.connectError, e) :: rest) now
        = .error .operationalError)
  ∧ (∀ rest : List (UpsertMode × EmailData),
      insert_emails_batch_runtime db ((.writeError, e) :: rest) now
        = insert_emails_batch_runtime db rest now) :=
  ⟨rfl, rfl, fun _ => rfl, fun _ => rfl⟩

end GmailRules
namespace GmailRules

/-- The four structural failure shapes of a rule-set source. -/
def isStructural : RuleSource → Bool
  | .doc _ => false
  | _ => true

/-- C1.  At the concrete input of a missing rules file — a structural
error — validation does NOT raise: validate_rules_file returns False with
the error recorded, and the Rule Engine is then constructed successfully
holding an empty rule list, refuting the claim that every erroneous
document makes construction fail with ValidationError. -/
theorem c1_counterexample :
    (validate_rules_file (.fileNotFound "rules.json")).result = .returnedFalse
  ∧ (validate_rules_file (.fileNotFound "rules.json")).errors ≠ []
  ∧ rule_engine_init (.fileNotFound "rules.json") = .engine (.rulesList []) := by
  refine ⟨rfl, ?_, rfl⟩
  decide

/-- Accumulation: when the per-rule loop completes, the errors of every
single rule are contained in the accumulated list — validation does not
stop at the first failing rule. -/
theorem validate_rules_list_mem_errors (rules : List RuleJ) :
    ∀ (k : Nat) (esAll wsAll : List String),
      validate_rules_list rules k = .ok (esAll, wsAll) →
      ∀ (i : Nat) (hi : i < rules.length) (esI wsI : List String),
        validate_rule (rules.get ⟨i, hi⟩) (k + i) = .ok (esI, wsI) →
        ∀ m ∈ esI, m ∈ esAll := by
  induction rules with
  | nil =>
    intro k esAll wsAll _ i hi
    exact absurd hi (Nat.not_lt_zero i)
  | cons r rest ih =>
    intro k esAll wsAll hok i hi esI wsI hrule m hm
    unfold validate_rules_list at hok
    cases hv : validate_rule r k with
    | error e =>
      rw [hv] at hok
      simp at hok
    | ok p =>
      obtain ⟨es, ws⟩ := p
      rw [hv] at hok
      cases hrest : validate_rules_list rest (k + 1) with
      | error e =>
        rw [hrest] at hok
        simp at hok
      | ok q =>
        obtain ⟨es2, ws2⟩ := q
        rw [hrest] at hok
        simp at hok
        obtain ⟨he, _⟩ := hok
        cases i with
        | zero =>
          simp at hrule
          rw [hv] at hrule
          simp at hrule
          rw [← he]
          exact List.mem_append_left _ (hrule.1 ▸ hm)
        | succ n =>
          have hn : n < rest.length := Nat.lt_of_succ_lt_succ hi
          have hidx : (r :: rest).get ⟨n + 1, hi⟩ = rest.get ⟨n, hn⟩ := rfl
          have harith : k + (n + 1) = (k + 1) + n := by omega
          rw [hidx, harith] at hrule
          have := ih (k + 1) es2 ws2 hrest n hn esI wsI hrule m hm
          rw [← he]
          exact List.mem_append_right _ this

/-- C1 (amended).  Structural errors (missing file, invalid JSON, missing
or non-array rules key) make validate_rules_file return False without
raising, after which the engine is constructed anyway on the unvalidated
load_rules result (the empty list for those shapes).  Only per-rule
semantic errors raise: when the per-rule loop completes with a non-empty
accumulated error list, RuleValidationError carries exactly that list and
engine construction fails with it — and the accumulated list contains the
errors of every rule, so validation did not stop at the first failure. -/
theorem c1_validation_behaviour :
    (∀ src : RuleSource, isStructural src = true →
        (validate_rules_file src).result = .returnedFalse
      ∧ (validate_rules_file src).errors ≠ []
      ∧ rule_engine_init src = .engine (load_rules src))
  ∧ (∀ (rules : List RuleJ) (es ws : List String),
        rules ≠ [] → rules.length ≤ MAX_RULES →
        validate_rules_list rules 0 = .ok (es, ws) →
        (es ≠ [] →
            validate_rules_file (.doc rules) = ⟨.raisedValidationError, es, ws⟩
          ∧ rule_engine_init (.doc rules) = .failedValidation es ws)
      ∧ (es = [] →
            validate_rules_file (.doc rules) = ⟨.returnedOk, es, ws⟩
          ∧ rule_engine_init (.doc rules) = .engine (.rulesList rules)))
  ∧ (∀ (rules : List RuleJ) (esAll wsAll : List String),
        validate_rules_list rules 0 = .ok (esAll, wsAll) →
        ∀ (i : Nat) (hi : i < rules.length) (esI wsI : List String),
          validate_rule (rules.get ⟨i, hi⟩) i = .ok (esI, wsI) →
          ∀ m ∈ esI, m ∈ esAll) := by
  refine ⟨?_, ?_, ?_⟩
  · intro src hs
    cases src with
    | fileNotFound f =>
      refine ⟨rfl, ?_, rfl⟩
      simp [validate_rules_file]
    | invalidJson => exact ⟨rfl, by decide, rfl⟩
    | notRulesObject => exact ⟨rfl, by decide, rfl⟩
    | rulesNotArray => exact ⟨rfl, by decide, rfl⟩
    | doc rules => simp [isStructural] at hs
  · intro rules es ws hne hlen hok
    have hlen0 : ¬ rules.length = 0 := by
      intro h0
      exact hne (List.eq_nil_of_length_eq_zero h0)
    have hmax : ¬ MAX_RULES < rules.length := Nat.not_lt.mpr hlen
    have hv : validate_rules_file (.doc rules)
        = (if (([] ++ es : List String)).isEmpty
            then (⟨.returnedOk, [] ++ es, ws⟩ : ValidateOutput)
            else ⟨.raisedValidationError, [] ++ es, ws⟩) := by
      simp only [validate_rules_file, if_neg hlen0, if_neg hmax, hok]
    constructor
    · intro hesne
      have hne' : ¬ (([] ++ es : List String)).isEmpty = true := by
        simpa using hesne
      have hv' : validate_rules_file (.doc rules) = ⟨.raisedValidationError, es, ws⟩ := by
        rw [hv, if_neg hne']
        simp
      refine ⟨hv', ?_⟩
      unfold rule_engine_init
      rw [hv']
    · intro hese
      subst hese
      have hv' : validate_rules_file (.doc rules) = ⟨.returnedOk, [], ws⟩ := by
        rw [hv]
        simp
      refine ⟨hv', ?_⟩
      unfold rule_engine_init
      rw [hv']
      rfl
  · intro rules esAll wsAll hok i hi esI wsI hrule m hm
    have harith : (0 : Nat) + i = i := Nat.zero_add i
    exact validate_rules_list_mem_errors rules 0 esAll wsAll hok i hi esI wsI
      (by rw [harith]; exact hrule) m hm

/-- Witness for C1 (amended) at a concrete structural input. -/
theorem c1_validation_behaviour_witness :
    (validate_rules_file .invalidJson).result = .returnedFalse
  ∧ (validate_rules_file .invalidJson).errors ≠ []
  ∧ rule_engine_init .invalidJson = .engine (load_rules .invalidJson) :=
  c1_validation_behaviour.1 .invalidJson rfl

end GmailRules
